import Mathlib

/-!
Verification of the OneDrive auth/sync supervisor (Electron main process).

The development shallowly embeds the state manipulated by the main process
(`index.js`): the current auth run and its `settled` flag, the auth window and
sub-process references, the token file, the `auth-result` / `sync-result`
event streams, the redirect classifier, the auth-file cleanup, the force-sync
orchestration, the graceful monitor stop, and the config bootstrap.
Each handler from the source is translated as a state transformer; the
single-threaded event-loop semantics of the source means every handler runs
to completion, so a trace is a composition of these transformers.
-/

/-- Statuses carried on the `auth-result` channel.  The source sends plain
strings; we keep them as strings.  `completed` and `error` are terminal
outcomes for an auth run; `success` is the intermediate redirect signal and
`info` is informational. -/
def isTerminalStatus (st : String) : Bool :=
  st == "completed" || st == "error"

/-- State relevant to one authentication attempt, as held by the mutable
module-level variables of `index.js` together with the `run` object created
by `beginAuthRun`:

* `runSettled`       — `run.settled`
* `runActive`        — `activeAuthRun === run`
* `authWindowOpen`   — `authWindow` is non-null (the auth surface exists)
* `procRef`          — `onedriveProcess` is non-null
* `tokenExists`      — the `refresh_token` file exists
* `events`           — statuses of `auth-result` events delivered so far,
                       oldest first. -/
structure AuthState where
  runSettled : Bool
  runActive : Bool
  authWindowOpen : Bool
  procRef : Bool
  tokenExists : Bool
  events : List String
  deriving DecidableEq, Repr

/-- `settleAuthRun(run)`: if the run is already settled do nothing, else set
`run.settled = true` and clear `activeAuthRun` when it is this run. -/
def settleAuthRun (s : AuthState) : AuthState :=
  if s.runSettled then s
  else { s with runSettled := true, runActive := false }

/-- `failAuthFlow(message, error, run)`: no-op when the run is settled;
otherwise settle it, close the auth window, kill and clear the auth
sub-process, and send a terminal `error` event.  This is the target of the
`uncaughtException` / `unhandledRejection` catch-alls, of the spawn-error
handler, of the nonzero-exit observer and of the window-closed cancel path. -/
def failAuthFlow (s : AuthState) : AuthState :=
  if s.runSettled then s
  else
    let s1 := settleAuthRun s
    { s1 with
      authWindowOpen := false
      procRef := false
      events := s1.events ++ ["error"] }

/-- `decideAfterExit()` inside `handleAuthRedirect`: re-check the token file
and send the terminal event — `completed` when the token exists (the monitor
is then started), `error` (kein Token gefunden) otherwise.  Note that the
source version consults neither `run.settled` nor any once-only guard. -/
def decideAfterExit (s : AuthState) : AuthState :=
  if s.tokenExists then { s with events := s.events ++ ["completed"] }
  else { s with events := s.events ++ ["error"] }

/-- The body of `handleAuthRedirect` after the `await fs.writeFile` of the
response file: if the auth window is still open, settle the run and close the
window (the `closed` handler then sees a settled run and does nothing), and in
every case send the intermediate `success` event to the main window.  The
subsequent wait-for-exit logic is modelled separately because it either calls
`decideAfterExit` at once or registers it on the process events. -/
def handleAuthRedirectAfterWrite (s : AuthState) : AuthState :=
  let s1 :=
    if s.authWindowOpen then
      let t := settleAuthRun s
      { t with authWindowOpen := false }
    else s
  { s1 with events := s1.events ++ ["success"] }

/-- The `onedriveProcess.on('exit')` observer registered at spawn time: clear
the process reference; if the exit was caused by SIGTERM or SIGKILL, return
without any further action; otherwise, when the exit code differs from 0, run
the failure path `failAuthFlow`. -/
def authExitObserver (code : Option Int) (signal : Option String) (s : AuthState) :
    AuthState :=
  let s1 := { s with procRef := false }
  if signal = some "SIGTERM" ∨ signal = some "SIGKILL" then s1
  else if code ≠ some 0 then failAuthFlow s1
  else s1

/-- The race trace behind claim C1: the redirect has been classified and
`handleAuthRedirect` is suspended in `await fs.writeFile`; the catch-all
(`unhandledRejection`) fires `failAuthFlow` on the still-unsettled run; then
`handleAuthRedirect` resumes — the window is gone, the intermediate `success`
is still sent, and since `failAuthFlow` nulled `onedriveProcess`,
`decideAfterExit` runs immediately and, the token file being present, sends
`completed`.  (The SIGTERM exit of the killed sub-process is swallowed by the
signal guard of `authExitObserver` and adds nothing.) -/
def raceTraceState : AuthState :=
  let s0 : AuthState :=
    { runSettled := false, runActive := true, authWindowOpen := true
      procRef := true, tokenExists := true, events := [] }
  let s1 := failAuthFlow s0
  let s2 := handleAuthRedirectAfterWrite s1
  decideAfterExit s2

example : raceTraceState.events = ["error", "success", "completed"] := by decide

example : raceTraceState.events.filter isTerminalStatus = ["error", "completed"] := by
  decide

/-! ### Run bookkeeping of the controller (claim C3)

`activeAuthRun` is a single mutable reference; `beginAuthRun` creates a fresh
run object with `settled: false` and overwrites the reference.  We record
every run ever created (its settled flag, creation order) because the closures
attached to processes and windows keep referencing the old run objects. -/

/-- The controller-level view: the settled flags of all runs created so far
(in creation order) and the index of the run currently held by
`activeAuthRun`, when any. -/
structure RunController where
  runs : List Bool
  active : Option Nat
  deriving DecidableEq, Repr

/-- `beginAuthRun()`: allocate a fresh run with `settled = false` and point
`activeAuthRun` at it.  Nothing is done to any earlier run. -/
def beginAuthRun (c : RunController) : RunController :=
  { runs := c.runs ++ [false], active := some c.runs.length }

/-- Number of runs whose `settled` flag is still false. -/
def countUnsettled (c : RunController) : Nat :=
  (c.runs.filter (fun b => !b)).length

example : countUnsettled (beginAuthRun (beginAuthRun ⟨[], none⟩)) = 2 := by decide

/-! ### Redirect classification (claim C4)

`isRedirectUrl` in `openAuthWindow` compares the candidate against the
initial authorize URL, then parses it with the WHATWG `URL` constructor and
accepts the Microsoft native-client completion endpoint or a loopback host.
`parseURL` below models the `new URL(...)` constructor for the http(s)-style
absolute URLs this flow sees: it requires an alphabetic scheme followed by
`://`, takes the authority up to the first `/`, `?` or `#`, strips a `:port`
suffix to obtain the hostname, and takes the pathname up to the first `?` or
`#` (defaulting to `/`).  A string without a scheme or with an empty host
fails to parse, as it does in the source (`catch { return false }`). -/

/-- Hostname and pathname of a parsed URL, the two components the classifier
consults. -/
structure URLParts where
  hostname : String
  pathname : String
  deriving DecidableEq, Repr

/-- Splits a character list at the first occurrence of `://`, returning the
characters before it and the characters after it, or `none` when `://` does
not occur. -/
def splitScheme : List Char → Option (List Char × List Char)
  | [] => none
  | ':' :: '/' :: '/' :: rest => some ([], rest)
  | c :: rest =>
    match splitScheme rest with
    | none => none
    | some (sch, r) => some (c :: sch, r)

/-- Suffix test on character lists, used to model `String.prototype.endsWith`
of the pathname check. -/
def listEndsWith (l t : List Char) : Bool :=
  l.reverse.take t.length == t.reverse

/-- Suffix test on strings via their character lists (kernel-reducible). -/
def strEndsWith (s t : String) : Bool :=
  listEndsWith s.toList t.toList

/-- Model of the WHATWG `new URL(s)` constructor restricted to the absolute
http(s)-style URLs of the auth flow; `none` models the constructor throwing.
The scheme must be non-empty and alphabetic and be followed by `://`; the
authority runs to the first `/`, `?` or `#`; the hostname is the authority
with any `:port` suffix removed and must be non-empty; the pathname runs
from the `/` ending the authority to the first `?` or `#`, defaulting to
`/`. -/
def parseURL (s : String) : Option URLParts :=
  match splitScheme s.toList with
  | none => none
  | some (sch, rest) =>
    if sch.isEmpty || !(sch.all Char.isAlpha) then none
    else
      let authority := rest.takeWhile (fun c => c != '/' && c != '?' && c != '#')
      let after := rest.drop authority.length
      let hostL := authority.takeWhile (fun c => c != ':')
      if hostL.isEmpty then none
      else
        let pathL : List Char :=
          match after with
          | '/' :: _ => after.takeWhile (fun c => c != '?' && c != '#')
          | _ => ['/']
        some { hostname := String.mk hostL, pathname := String.mk pathL }

/-- The endpoint test applied once the candidate parses: the Microsoft
native-client completion endpoint, or a loopback host. -/
def isRedirectTarget (u : URLParts) : Bool :=
  (u.hostname == "login.microsoftonline.com"
      && strEndsWith u.pathname "/oauth2/nativeclient")
    || (u.hostname == "localhost" || u.hostname == "127.0.0.1")

/-- `isRedirectUrl(url)` from `openAuthWindow`, with the captured
`initialAuthUrl` made explicit: false for an empty (falsy) candidate, false
when the candidate is still the initial authorize URL, false when it does not
parse, else the endpoint test. -/
def isRedirectUrl (candidate initialAuthUrl : String) : Bool :=
  if candidate == "" then false
  else if candidate == initialAuthUrl then false
  else
    match parseURL candidate with
    | none => false
    | some u => isRedirectTarget u

example : isRedirectUrl "https://login.microsoftonline.com/common/oauth2/nativeclient?code=abc"
    "https://login.microsoftonline.com/authorize?client_id=000" = true := by decide

example : isRedirectUrl "http://localhost:53682/?code=abc"
    "https://login.microsoftonline.com/authorize?client_id=000" = true := by decide

example : isRedirectUrl "https://example.com/"
    "https://login.microsoftonline.com/authorize?client_id=000" = false := by decide

example : isRedirectUrl "not a url"
    "https://login.microsoftonline.com/authorize?client_id=000" = false := by decide

/-! ### Stale auth-file cleanup (claim C5)

The `start-onedrive-auth` handler clears `request.url` and `response.url`
with two `fs.unlink` calls wrapped in a single try/catch; `unlink` rejects
when the file is absent, which aborts the whole block. -/

/-- The rendezvous file pair: content of `request.url` and `response.url`
(`none` when the file is absent). -/
structure AuthFilePair where
  request : Option String
  response : Option String
  deriving DecidableEq, Repr

/-- The cleanup block: `await fs.unlink(REQUEST); await fs.unlink(RESPONSE)`
inside one try/catch.  When the request file is absent, the first `unlink`
rejects and the catch swallows the error — the response file is not touched.
When the request file exists but the response file does not, the second
`unlink` rejects after the first already removed the request file. -/
def clearOldAuthFiles (p : AuthFilePair) : AuthFilePair :=
  match p.request with
  | none => p
  | some _ =>
    let p1 : AuthFilePair := { p with request := none }
    match p1.response with
    | none => p1
    | some _ => { p1 with response := none }

/-- A file in the pair is in the cleared state when it is absent or empty. -/
def fileAbsentOrEmpty : Option String → Bool
  | none => true
  | some s => s.toList.isEmpty

/-- The invariant claimed for the moment a new run begins waiting: both
rendezvous files are absent or empty. -/
def authFilesCleared (p : AuthFilePair) : Bool :=
  fileAbsentOrEmpty p.request && fileAbsentOrEmpty p.response

example : clearOldAuthFiles ⟨some "a", some "b"⟩ = ⟨none, none⟩ := by decide

example : clearOldAuthFiles ⟨none, some "stale"⟩ = ⟨none, some "stale"⟩ := by decide

/-! ### Forced one-shot synchronization (claims C6 and C8)

The `force-sync` handler: check installation, check the token file, stop the
monitor gracefully, run the one-shot sync process, then restart the monitor
when it had been running or the sync succeeded. -/

/-- Outcome tag returned to the renderer by the `force-sync` handler. -/
inductive ForceSyncStatus
  | ok
  | failed
  deriving DecidableEq, Repr

/-- Environment the handler reads: whether `which onedrive` succeeds, whether
the `refresh_token` file exists, what `stopOnedriveMonitorGracefully`
resolves to, and the exit code of the one-shot sync process. -/
structure SyncEnv where
  installed : Bool
  hasToken : Bool
  monitorWasRunning : Bool
  syncExitCode : Int
  deriving DecidableEq, Repr

/-- Observable result of one `force-sync` invocation: the returned tag and
reason, whether the one-shot `onedrive --sync` sub-process was spawned,
whether `startOnedriveMonitor` was invoked afterwards, and the statuses sent
on `sync-result` (stdout/stderr line streaming abstracted away). -/
structure ForceSyncResult where
  status : ForceSyncStatus
  reason : Option String
  spawnedSync : Bool
  monitorRestarted : Bool
  syncEvents : List String
  deriving DecidableEq, Repr

/-- The `force-sync` handler.  Precondition order is that of the source:
installation first (reason `onedrive-not-installed`), then the token file
(reason `no-token`); only then is the monitor stopped and the one-shot sync
process spawned; the monitor is restarted when it was running before or the
sync exited 0. -/
def forceSync (env : SyncEnv) : ForceSyncResult :=
  if !env.installed then
    { status := .failed, reason := some "onedrive-not-installed"
      spawnedSync := false, monitorRestarted := false, syncEvents := ["error"] }
  else if !env.hasToken then
    { status := .failed, reason := some "no-token"
      spawnedSync := false, monitorRestarted := false, syncEvents := ["error"] }
  else
    let wasRunning := env.monitorWasRunning
    let preEvents : List String := if wasRunning then ["info"] else []
    let syncOk := env.syncExitCode == 0
    { status := if syncOk then .ok else .failed
      reason := none
      spawnedSync := true
      monitorRestarted := wasRunning || syncOk
      syncEvents := preEvents ++ [if syncOk then "success" else "error"] }

example : (forceSync ⟨true, false, true, 0⟩).reason = some "no-token" := by decide

example : (forceSync ⟨true, true, false, 0⟩).monitorRestarted = true := by decide

example : (forceSync ⟨true, true, false, 1⟩).monitorRestarted = false := by decide

/-! ### Graceful monitor stop (claim C7)

`stopOnedriveMonitorGracefully` resolves `false` at once when there is no
monitor reference or its pid is not a number; then it sends SIGTERM inside a
try/catch — a failed send resolves `false` and returns; otherwise it arms a
3-second timer (forced SIGKILL, warning, resolve `true`) and registers
once-only `exit` and `close` listeners (clear the timer, resolve `true`).
All three paths funnel through `done`, which is guarded by a `resolved`
flag. -/

/-- Conditions visible at the moment of the call: is `onedriveMonitorProcess`
non-null, is its `pid` a number, and does `process.kill(pid, SIGTERM)`
succeed (it throws e.g. when the process already died). -/
structure StopEnv where
  procRef : Bool
  pidValid : Bool
  killSucceeds : Bool
  deriving DecidableEq, Repr

/-- The asynchronous events that can reach the stop logic after SIGTERM was
sent: the 3-second timer firing, the process `exit` event, the process
`close` event. -/
inductive StopEv
  | timer
  | exited
  | closed
  deriving DecidableEq, Repr

/-- Observable state of one `stopOnedriveMonitorGracefully` call: the
`resolved` guard, every value ever passed to `resolve` (in order), the
one-shot/cleared state of the timer and of the once-listeners, whether a
SIGKILL was sent, whether the monitor reference was cleared, and how many
forced-termination warnings were emitted. -/
structure StopRun where
  resolved : Bool
  resolutions : List Bool
  timerCleared : Bool
  exitConsumed : Bool
  closeConsumed : Bool
  forcedKill : Bool
  monitorRef : Bool
  warnCount : Nat
  deriving DecidableEq, Repr

/-- `done(result)`: resolve only when the `resolved` flag is still unset. -/
def stopDone (r : Bool) (st : StopRun) : StopRun :=
  if st.resolved then st
  else { st with resolved := true, resolutions := st.resolutions ++ [r] }

/-- One asynchronous event hitting the stop logic.  A fired timer cannot fire
again (modelled by `timerCleared`), and `once`-listeners detach after their
first call (modelled by the consumed flags).  The timer handler sends
SIGKILL, clears the reference, warns and resolves `true`; the exit and close
handlers clear the timer, clear the reference and resolve `true`. -/
def stopStep (st : StopRun) (e : StopEv) : StopRun :=
  match e with
  | .timer =>
    if st.timerCleared then st
    else
      stopDone true
        { st with timerCleared := true, forcedKill := true
                  monitorRef := false, warnCount := st.warnCount + 1 }
  | .exited =>
    if st.exitConsumed then st
    else
      stopDone true
        { st with exitConsumed := true, timerCleared := true, monitorRef := false }
  | .closed =>
    if st.closeConsumed then st
    else
      stopDone true
        { st with closeConsumed := true, timerCleared := true, monitorRef := false }

/-- State of a stop call right after the synchronous prologue, before any
asynchronous event. -/
def stopInit (env : StopEnv) : StopRun :=
  { resolved := false, resolutions := [], timerCleared := false
    exitConsumed := false, closeConsumed := false, forcedKill := false
    monitorRef := env.procRef, warnCount := 0 }

/-- A whole `stopOnedriveMonitorGracefully` call: the synchronous prologue
(early `false` resolutions) followed by the asynchronous events in the order
they occur.  When the prologue resolves, no timer or listener was armed, so
the event list is irrelevant. -/
def stopGracefullyRun (env : StopEnv) (evs : List StopEv) : StopRun :=
  if !env.procRef || !env.pidValid then stopDone false (stopInit env)
  else if !env.killSucceeds then stopDone false (stopInit env)
  else evs.foldl stopStep (stopInit env)

example : (stopGracefullyRun ⟨false, false, false⟩ []).resolutions = [false] := by decide

example :
    (stopGracefullyRun ⟨true, true, true⟩ [.timer, .exited, .closed]).resolutions
      = [true] := by decide

example :
    (stopGracefullyRun ⟨true, true, true⟩ [.exited, .closed, .timer]).forcedKill
      = false := by decide

/-! ### Configuration bootstrap (claim C9)

`ensureOnedriveConfig` reads the config file (treating a read failure as
empty), tests it against the regex `\bsync_dir\b`, and writes the two-line
default only when the test fails. -/

/-- A regex word character, as in the `\b` boundary semantics: ASCII
alphanumeric or underscore. -/
def isWordChar (c : Char) : Bool :=
  c.isAlphanum || c == '_'

/-- The characters of the token the regex looks for. -/
def syncDirToken : List Char :=
  ['s', 'y', 'n', 'c', '_', 'd', 'i', 'r']

/-- Does `sync_dir` occur at the head of `l` with word boundaries on both
sides, `prev` being the character just before `l` (none at the start of the
string)? -/
def syncDirWordAt (prev : Option Char) (l : List Char) : Bool :=
  l.take 8 == syncDirToken
    && (match prev with
        | none => true
        | some p => !isWordChar p)
    && (match l.drop 8 with
        | [] => true
        | d :: _ => !isWordChar d)

/-- Scan for a word-boundary occurrence of `sync_dir` anywhere in the list. -/
def hasSyncDirWordAux : Option Char → List Char → Bool
  | _, [] => false
  | prev, c :: rest => syncDirWordAt prev (c :: rest) || hasSyncDirWordAux (some c) rest

/-- The test `/\bsync_dir\b/.test(existing)` of the source. -/
def hasSyncDirWord (s : String) : Bool :=
  hasSyncDirWordAux none s.toList

/-- Models `os.homedir()`; the claims do not depend on its value, only on its
fixed shape inside the default config text. -/
def homeDir : String := "/home/user"

/-- `ONEDRIVE_DEFAULT_SYNC_DIR = path.join(os.homedir(), 'OneDrive-Temp')`. -/
def onedriveDefaultSyncDir : String := homeDir ++ "/OneDrive-Temp"

/-- The two-line default written when no `sync_dir` key is found. -/
def defaultConfigContent : String :=
  "sync_dir = \"" ++ onedriveDefaultSyncDir ++ "\"\n"
    ++ "sync_business_shared_items = \"false\"\n"

/-- `ensureOnedriveConfig()` as a transformer of the config-file content
(`none` = file absent; the read failure of an absent file yields
`existing = ''`).  The surrounding try/catch only swallows filesystem errors
and does not change the success-path content. -/
def ensureOnedriveConfig (file : Option String) : Option String :=
  let existing := file.getD ""
  if hasSyncDirWord existing then file
  else some defaultConfigContent

example : hasSyncDirWord defaultConfigContent = true := by decide

example : ensureOnedriveConfig (some "sync_dir = \"/data/od\"\n")
    = some "sync_dir = \"/data/od\"\n" := by decide

example : hasSyncDirWord "sync_dir2 = x" = false := by decide

example : hasSyncDirWord "a sync_dir = x" = true := by decide

/-! ## Supporting lemmas -/

/-- After `settleAuthRun` the run is settled, whatever it was before. -/
theorem settleAuthRun_settled (s : AuthState) : (settleAuthRun s).runSettled = true := by
  unfold settleAuthRun
  split
  · assumption
  · rfl

/-- Resolved-state invariant of a graceful stop: the promise has resolved
exactly once, with `true`. -/
def stopLeft (st : StopRun) : Prop :=
  st.resolved = true ∧ st.resolutions = [true]

theorem stopStep_left (st : StopRun) (e : StopEv) (h : stopLeft st) :
    stopLeft (stopStep st e) := by
  obtain ⟨h1, h2⟩ := h
  cases e <;> simp [stopStep, stopDone, stopLeft, h1, h2] <;>
    split <;> simp_all

theorem foldl_stopStep_left (evs : List StopEv) (st : StopRun) (h : stopLeft st) :
    stopLeft (evs.foldl stopStep st) := by
  induction evs generalizing st with
  | nil => simpa using h
  | cons e rest ih => exact ih _ (stopStep_left st e h)

theorem stopStep_init_left (env : StopEnv) (e : StopEv) :
    stopLeft (stopStep (stopInit env) e) := by
  cases e <;> simp [stopStep, stopInit, stopDone, stopLeft]

/-! ## Claims -/

/-- C1: the claim states that the settled flag flips false→true at most once
and that exactly one terminal StatusEvent per run reaches the presentation
layer even when a process-exit path and the catch-all fault path both fire on
the same unsettled run.  The code violates the second half: in `raceTraceState`
the catch-all (`failAuthFlow`) fires during the `await fs.writeFile` of
`handleAuthRedirect` and emits the terminal `error`, and the resumed redirect
handler still reaches `decideAfterExit` — which consults no settled flag —
and emits a second, contradictory terminal `completed` for the same run.  The
settled flag itself does flip only once (it is true at the end). -/
theorem authRun_race_two_terminal_events :
    raceTraceState.events.filter isTerminalStatus = ["error", "completed"]
      ∧ raceTraceState.runSettled = true := by
  constructor
  · decide
  · decide

/-- C2 counterexample: classifying and persisting the redirect alone already
settles the run.  Starting from an unsettled run with the auth surface open
and the sub-process still referenced (not yet exited, token file absent so no
verification can have succeeded), the post-write body of `handleAuthRedirect`
leaves `runSettled = true` while `procRef` is still `true` and the only event
sent is the intermediate `success` — so the run is settled before sub-process
exit and token verification, contrary to the claim. -/
theorem redirect_settles_before_exit :
    (handleAuthRedirectAfterWrite
        { runSettled := false, runActive := true, authWindowOpen := true
          procRef := true, tokenExists := false, events := [] })
      = { runSettled := true, runActive := false, authWindowOpen := false
          procRef := true, tokenExists := false, events := ["success"] } := by
  decide

/-- C2 as amended: on the first classified redirect with the auth surface
open, the run is settled immediately (before sub-process exit and token
verification); only the intermediate `success` signal is sent at that point —
the redirect emits no terminal event, which is still deferred to
`decideAfterExit`. -/
theorem redirect_settle_is_immediate (s : AuthState) (h : s.authWindowOpen = true) :
    (handleAuthRedirectAfterWrite s).runSettled = true
      ∧ (handleAuthRedirectAfterWrite s).events = s.events ++ ["success"]
      ∧ (handleAuthRedirectAfterWrite s).events.filter isTerminalStatus
          = s.events.filter isTerminalStatus := by
  unfold handleAuthRedirectAfterWrite
  refine ⟨?_, ?_, ?_⟩
  · simp only [h, if_true]
    exact settleAuthRun_settled s
  · simp [h, settleAuthRun]
    split <;> rfl
  · simp [h, settleAuthRun, List.filter_append]
    split <;> simp [isTerminalStatus]

/-- Witness for the amended C2 at a concrete pre-state. -/
theorem redirect_settle_is_immediate_witness :
    (handleAuthRedirectAfterWrite
        { runSettled := false, runActive := true, authWindowOpen := true
          procRef := true, tokenExists := true, events := [] }).runSettled = true :=
  (redirect_settle_is_immediate
    { runSettled := false, runActive := true, authWindowOpen := true
      procRef := true, tokenExists := true, events := [] } rfl).1

/-- C3: the claim states that in every reachable controller state at most one
unsettled AuthRun exists, in particular after a second `start-onedrive-auth`
command arrives while an earlier run is unsettled.  The code violates this:
`beginAuthRun` only repoints `activeAuthRun` at a fresh unsettled run and
never settles or cancels the earlier one, so after two consecutive starts
both runs are unsettled. -/
theorem second_start_leaves_two_unsettled :
    countUnsettled (beginAuthRun (beginAuthRun ⟨[], none⟩)) = 2
      ∧ (beginAuthRun (beginAuthRun ⟨[], none⟩)).runs = [false, false]
      ∧ (beginAuthRun (beginAuthRun ⟨[], none⟩)).active = some 1 := by
  decide

/-- C4: the redirect classifier returns false on a candidate textually
identical to the original and on an unparsable candidate, and otherwise true
iff the hostname/path is the OAuth native-client completion endpoint or the
hostname is localhost / 127.0.0.1; together with the five concrete cases of
the spec against the original authorize URL. -/
theorem isRedirectUrl_spec :
    (∀ c o : String,
        isRedirectUrl c o
          = (!(c == o)
              && (match parseURL c with
                  | none => false
                  | some u => isRedirectTarget u)))
      ∧ isRedirectUrl "https://login.microsoftonline.com/authorize?client_id=000"
          "https://login.microsoftonline.com/authorize?client_id=000" = false
      ∧ isRedirectUrl "not a url"
          "https://login.microsoftonline.com/authorize?client_id=000" = false
      ∧ isRedirectUrl "https://login.microsoftonline.com/common/oauth2/nativeclient?code=abc"
          "https://login.microsoftonline.com/authorize?client_id=000" = true
      ∧ isRedirectUrl "http://localhost:53682/?code=abc"
          "https://login.microsoftonline.com/authorize?client_id=000" = true
      ∧ isRedirectUrl "https://example.com/"
          "https://login.microsoftonline.com/authorize?client_id=000" = false := by
  refine ⟨?_, by decide, by decide, by decide, by decide, by decide⟩
  intro c o
  by_cases hc : c = ""
  · subst hc
    by_cases ho : ("" : String) = o
    · subst ho
      simp [isRedirectUrl]
    · simp [isRedirectUrl, show parseURL "" = none from rfl, Ne.symm ho]
  · by_cases hco : c = o
    · subst hco
      simp [isRedirectUrl, hc]
    · simp [isRedirectUrl, hc, hco]

/-- C5: the claim states that at the moment a new run begins waiting both
rendezvous files are absent or empty, for every combination of stale files —
including "only response present".  The code violates this: `fs.unlink` of the
absent request file rejects inside the single try/catch, the block aborts,
and the stale response file survives untouched, so the invariant fails in
exactly that combination (it does hold in the other three). -/
theorem stale_response_survives_cleanup :
    clearOldAuthFiles ⟨none, some "https://stale-redirect"⟩
        = ⟨none, some "https://stale-redirect"⟩
      ∧ authFilesCleared (clearOldAuthFiles ⟨none, some "https://stale-redirect"⟩)
          = false
      ∧ authFilesCleared (clearOldAuthFiles ⟨some "r", some "s"⟩) = true
      ∧ authFilesCleared (clearOldAuthFiles ⟨some "r", none⟩) = true
      ∧ authFilesCleared (clearOldAuthFiles ⟨none, none⟩) = true := by
  decide

/-- C6: with the client installed and the token file absent, `force-sync`
returns `failed` with reason `no-token` and spawns no sync sub-process; the
installation check runs first, so with the client missing the reason is
`onedrive-not-installed` regardless of the token (and still nothing is
spawned). -/
theorem forceSync_no_token (env : SyncEnv) :
    (env.installed = true → env.hasToken = false →
        forceSync env
          = { status := ForceSyncStatus.failed, reason := some "no-token"
              spawnedSync := false, monitorRestarted := false
              syncEvents := ["error"] })
      ∧ (env.installed = false →
        (forceSync env).reason = some "onedrive-not-installed"
          ∧ (forceSync env).spawnedSync = false) := by
  constructor
  · intro hi ht
    simp [forceSync, hi, ht]
  · intro hi
    simp [forceSync, hi]

/-- Witness for C6 at concrete environments. -/
theorem forceSync_no_token_witness :
    forceSync ⟨true, false, true, 5⟩
        = { status := ForceSyncStatus.failed, reason := some "no-token"
            spawnedSync := false, monitorRestarted := false
            syncEvents := ["error"] }
      ∧ (forceSync ⟨false, false, true, 5⟩).reason = some "onedrive-not-installed" :=
  ⟨(forceSync_no_token ⟨true, false, true, 5⟩).1 rfl rfl,
   ((forceSync_no_token ⟨false, false, true, 5⟩).2 rfl).1⟩

/-- C7 counterexample: the claim states the stop resolves `true` whenever a
monitor process reference exists at call time.  In the environment where the
reference exists with a numeric pid but the SIGTERM send fails (the process
already died — its `exit` handler never clears the reference), the call
resolves `false`. -/
theorem stop_resolves_false_with_ref_present :
    (stopGracefullyRun ⟨true, true, false⟩ []).resolutions = [false]
      ∧ (⟨true, true, false⟩ : StopEnv).procRef = true := by
  decide

/-- C7 as amended: every call resolves exactly once; it resolves `false` when
no monitor reference exists, the reference has no numeric pid, or the
termination signal cannot be delivered, and `true` otherwise — whichever of
the 3-second timer and the exit/close events fires first, and in whatever
order the remaining events arrive. -/
theorem stopGracefully_resolves_once (env : StopEnv) (evs : List StopEv) :
    (¬(env.procRef = true ∧ env.pidValid = true ∧ env.killSucceeds = true) →
        (stopGracefullyRun env evs).resolutions = [false])
      ∧ (env.procRef = true → env.pidValid = true → env.killSucceeds = true →
          evs ≠ [] → (stopGracefullyRun env evs).resolutions = [true]) := by
  obtain ⟨pr, pv, ks⟩ := env
  constructor
  · intro h
    cases pr <;> cases pv <;> cases ks <;>
      simp_all [stopGracefullyRun, stopInit, stopDone]
  · intro hpr hpv hks hne
    subst hpr; subst hpv; subst hks
    cases evs with
    | nil => exact absurd rfl hne
    | cons e rest =>
      have h1 := foldl_stopStep_left rest _ (stopStep_init_left ⟨true, true, true⟩ e)
      simpa [stopGracefullyRun] using h1.2

/-- Witness for the amended C7 at concrete environments and event orders. -/
theorem stopGracefully_resolves_once_witness :
    (stopGracefullyRun ⟨false, true, true⟩ [StopEv.timer]).resolutions = [false]
      ∧ (stopGracefullyRun ⟨true, true, true⟩
          [StopEv.exited, StopEv.closed, StopEv.timer]).resolutions = [true] :=
  ⟨(stopGracefully_resolves_once ⟨false, true, true⟩ [StopEv.timer]).1 (by simp),
   (stopGracefully_resolves_once ⟨true, true, true⟩
      [StopEv.exited, StopEv.closed, StopEv.timer]).2 rfl rfl rfl (by simp)⟩

/-- C8: after the one-shot sync exits (preconditions passed), the monitor is
restarted iff it was running before being stopped or the sync exited 0; in
particular a successful manual sync always leaves the monitor running. -/
theorem forceSync_monitor_restart (env : SyncEnv)
    (hi : env.installed = true) (ht : env.hasToken = true) :
    (forceSync env).monitorRestarted
        = (env.monitorWasRunning || (env.syncExitCode == 0))
      ∧ (env.syncExitCode = 0 → (forceSync env).monitorRestarted = true)
      ∧ (env.monitorWasRunning = false → env.syncExitCode ≠ 0 →
          (forceSync env).monitorRestarted = false) := by
  refine ⟨by simp [forceSync, hi, ht], ?_, ?_⟩
  · intro h0
    simp [forceSync, hi, ht, h0]
  · intro hw hc
    simp [forceSync, hi, ht, hw, hc]

/-- Witness for C8 at concrete environments. -/
theorem forceSync_monitor_restart_witness :
    (forceSync ⟨true, true, false, 0⟩).monitorRestarted = (false || ((0 : Int) == 0))
      ∧ (forceSync ⟨true, true, true, 2⟩).monitorRestarted
          = (true || ((2 : Int) == 0)) :=
  ⟨(forceSync_monitor_restart ⟨true, true, false, 0⟩ rfl rfl).1,
   (forceSync_monitor_restart ⟨true, true, true, 2⟩ rfl rfl).1⟩

/-- C9: `ensureOnedriveConfig` is idempotent and non-destructive — a file that
already mentions the `sync_dir` key (in particular one that sets it) is left
byte-for-byte unchanged, a second call changes nothing, and an absent file
receives exactly the two-line default. -/
theorem ensureOnedriveConfig_spec :
    (∀ s : String, hasSyncDirWord s = true → ensureOnedriveConfig (some s) = some s)
      ∧ (∀ f : Option String,
          ensureOnedriveConfig (ensureOnedriveConfig f) = ensureOnedriveConfig f)
      ∧ ensureOnedriveConfig none
          = some ("sync_dir = \"/home/user/OneDrive-Temp\"\n"
              ++ "sync_business_shared_items = \"false\"\n") := by
  refine ⟨?_, ?_, by decide⟩
  · intro s h
    simp [ensureOnedriveConfig, h]
  · intro f
    by_cases h : hasSyncDirWord (f.getD "") = true
    · simp [ensureOnedriveConfig, h]
    · simp [ensureOnedriveConfig, h]

/-- Witness for C9 at a concrete custom configuration. -/
theorem ensureOnedriveConfig_spec_witness :
    ensureOnedriveConfig (some "sync_dir = \"/data/od\"\n")
      = some "sync_dir = \"/data/od\"\n" :=
  ensureOnedriveConfig_spec.1 "sync_dir = \"/data/od\"\n" (by decide)

/-- C10: the auth process exit observer clears the process reference and:
on a SIGTERM or SIGKILL exit it neither emits an event nor settles the run
(the state change is exactly the cleared reference); otherwise it runs the
failure path `failAuthFlow` iff the exit code differs from 0. -/
theorem authExitObserver_signal_guard (code : Option Int) (signal : Option String)
    (s : AuthState) :
    ((signal = some "SIGTERM" ∨ signal = some "SIGKILL") →
        authExitObserver code signal s = { s with procRef := false }
          ∧ (authExitObserver code signal s).events = s.events
          ∧ (authExitObserver code signal s).runSettled = s.runSettled)
      ∧ (signal ≠ some "SIGTERM" → signal ≠ some "SIGKILL" → code ≠ some 0 →
          authExitObserver code signal s = failAuthFlow { s with procRef := false })
      ∧ (signal ≠ some "SIGTERM" → signal ≠ some "SIGKILL" → code = some 0 →
          authExitObserver code signal s = { s with procRef := false }) := by
  refine ⟨?_, ?_, ?_⟩
  · intro h
    have : authExitObserver code signal s = { s with procRef := false } := by
      simp [authExitObserver, h]
    exact ⟨this, by simp [this], by simp [this]⟩
  · intro h1 h2 hc
    simp [authExitObserver, h1, h2, hc]
  · intro h1 h2 hc
    simp [authExitObserver, h1, h2, hc]

/-- Witness for C10: a SIGTERM exit (the kill issued during cleanup) only
clears the reference, while a plain nonzero exit runs the failure path. -/
theorem authExitObserver_signal_guard_witness :
    authExitObserver (some 1) (some "SIGTERM")
        { runSettled := false, runActive := true, authWindowOpen := true
          procRef := true, tokenExists := false, events := [] }
      = { runSettled := false, runActive := true, authWindowOpen := true
          procRef := false, tokenExists := false, events := [] }
      ∧ authExitObserver (some 1) none
          { runSettled := false, runActive := true, authWindowOpen := true
            procRef := true, tokenExists := false, events := [] }
        = failAuthFlow
            { runSettled := false, runActive := true, authWindowOpen := true
              procRef := false, tokenExists := false, events := [] } :=
  ⟨((authExitObserver_signal_guard (some 1) (some "SIGTERM") _).1 (Or.inl rfl)).1,
   (authExitObserver_signal_guard (some 1) none _).2.1
     (by decide) (by decide) (by decide)⟩
